import Mathlib

/-!
# Verification of unpaper's file-handling core (src/file.c)

A shallow embedding of `loadImage`, `saveImage` and `saveDebug` from
`src/file.c`, together with models of the helpers they call that live
outside the visible source (`initImage`, `setPixel`, `copyImageArea` from
tools.c, the verbosity constants from unpaper.h, `errOutput` from
unpaper.c) and of the libav calls whose outcomes form the environment of
each run.

Modelling conventions:
* Machine bytes are `Nat` values; a `uint8_t` load truncates modulo 256.
* libav call outcomes (return codes, allocation successes, the decoded
  frame) are packaged into an environment record consumed by the
  straight-line translation of each C function.
* `errOutput` terminates the process; in the model a call to it is the
  `Except.error` constructor carrying the diagnostic that was printed.
  Because termination prevents any statement after `errOutput` from
  running, resource-release bookkeeping records exactly the releases
  performed before the function returned or terminated.
-/

set_option autoImplicit false

/-- The pixel formats distinguished by src/file.c: the five canonical
pass-through formats, the palette-indexed format, `AV_PIX_FMT_NONE` (the
unset format of a freshly allocated frame), and a catch-all for every
other libav pixel format code. -/
inductive PixFmt where
  | GRAY8
  | Y400A
  | RGB24
  | MONOBLACK
  | MONOWHITE
  | PAL8
  | NONE
  | other (code : Nat)
  deriving DecidableEq, Repr

/-- The output codec ids `saveImage` can select: PPM, PGM, PBM, and
`NONE` standing for the initial value `-1` of `output_codec`, which is
not a valid codec id. -/
inductive CodecId where
  | PPM
  | PGM
  | PBM
  | NONE
  deriving DecidableEq, Repr

/-- A raw frame / image buffer (libav `AVFrame` as used by src/file.c).
`data0` is the first data plane viewed as a byte array indexed by
`linesize0 * y + x`; `data1pal` is the second data plane of a
palette-indexed frame viewed as its 256-entry table of 32-bit colors;
`pix` is the pixel map of an output buffer written through `setPixel`
(the spec's "write the resulting 32-bit color into the output buffer at
(x, y)"). -/
structure AVFrame where
  width : Nat
  height : Nat
  format : PixFmt
  linesize0 : Nat
  data0 : Nat → Nat
  data1pal : Fin 256 → Nat
  pix : Nat → Nat → Nat

/-- Reading `frame->data[0][i]` at type `uint8_t`: a one-byte load, whose
value is the stored cell truncated to 8 bits, hence in `0..255`. -/
def readByte (f : AVFrame) (i : Nat) : Fin 256 :=
  ⟨f.data0 i % 256, Nat.mod_lt _ (Nat.succ_pos 255)⟩

/-- Model of `av_frame_alloc()`: a fresh frame has all fields unset; in
particular its pixel format is `AV_PIX_FMT_NONE`. -/
def av_frame_alloc : AVFrame :=
  { width := 0, height := 0, format := PixFmt.NONE, linesize0 := 0,
    data0 := fun _ => 0, data1pal := fun _ => 0, pix := fun _ _ => 0 }

/-- Model of `av_frame_clone(frame)`: a new reference to a frame with
identical geometry, pixel format and plane contents; observationally the
same frame value. -/
def av_frame_clone (f : AVFrame) : AVFrame := f

/-- Modelled from the spec: `initImage` (tools.c, not under src/)
allocates a new empty Image with the given geometry and pixel format
("allocate a new `RGB24` Image of the same geometry"). -/
def initImage (w h : Nat) (fmt : PixFmt) : AVFrame :=
  { width := w, height := h, format := fmt, linesize0 := w,
    data0 := fun _ => 0, data1pal := fun _ => 0, pix := fun _ _ => 0 }

/-- Modelled from the spec: `setPixel(color, x, y, image)` (tools.c, not
under src/) writes the 32-bit color into the output buffer at `(x, y)`. -/
def setPixel (color x y : Nat) (image : AVFrame) : AVFrame :=
  { image with pix := fun a b => if a = x ∧ b = y then color else image.pix a b }

/-- The inner loop of the `AV_PIX_FMT_PAL8` case of `loadImage`
(src/file.c lines 103-107) for row `y`: for `x = 0 .. n-1`, read the
one-byte index at `data[0][linesize[0]*y + x]`, resolve it through the
palette table in the second plane, and `setPixel` the color at `(x, y)`. -/
def fillRow (f : AVFrame) (y : Nat) : Nat → AVFrame → AVFrame
  | 0, img => img
  | n + 1, img =>
      setPixel (f.data1pal (readByte f (f.linesize0 * y + n))) n y (fillRow f y n img)

/-- The outer loop of the `AV_PIX_FMT_PAL8` case of `loadImage`
(src/file.c lines 102-108): rows `y = 0 .. n-1`, each fully remapped by
`fillRow`. -/
def fillRows (f : AVFrame) : Nat → AVFrame → AVFrame
  | 0, img => img
  | n + 1, img => fillRow f n f.width (fillRows f n img)

/-- The whole `AV_PIX_FMT_PAL8` branch of `loadImage` (src/file.c lines
98-109): allocate a new `RGB24` image of the frame's geometry and remap
every pixel through the palette. -/
def expandPalette (f : AVFrame) : AVFrame :=
  fillRows f f.height (initImage f.width f.height PixFmt.RGB24)

/-- The distinct fatal diagnostics `loadImage` can print through
`errOutput`, one per call site in src/file.c lines 38-112. -/
inductive LoadError where
  | cannotAllocContext
  | unableToOpenInput
  | missingStreams
  | wrongStream
  | cannotSetContext
  | unsupportedFormat
  | unableToOpenCodec
  | unableToReadFrame
  | invalidStream
  | decodeFailed
  | unsupportedPixelFormat
  deriving DecidableEq, Repr

/-- Outcomes of the external libav calls made by one run of `loadImage`:
return codes of the fallible calls, the stream layout discovered by
probing, and the frame produced by the decoder (`gotFrame` is the
`got_frame` output flag of `avcodec_decode_video2`; `decodedFrame` is
the frame's contents when `gotFrame` is set). -/
structure LoadEnv where
  ctxAllocOk : Bool
  openInputRet : Int
  nbStreams : Nat
  stream0IsVideo : Bool
  copyContextRet : Int
  decoderFound : Bool
  codecOpenRet : Int
  readFrameRet : Int
  pktStreamIndex : Nat
  decodeRet : Int
  gotFrame : Bool
  decodedFrame : AVFrame

/-- Result of one run of `loadImage`: the returned image or the fatal
diagnostic, plus which of the three release operations at src/file.c
lines 115-117 (`avcodec_close`, `av_free(avctx)`,
`avformat_close_input`) were executed before the run ended. -/
structure LoadResult where
  result : Except LoadError AVFrame
  closedCodec : Bool
  freedAvctx : Bool
  closedInput : Bool

/-- The `switch (frame->format)` of `loadImage` (src/file.c lines
89-113): pass-through formats are cloned verbatim, `PAL8` is expanded to
`RGB24`, anything else is fatal.  On the non-fatal branches the function
falls through to the releases at lines 115-117; the fatal branch calls
`errOutput`, so no release runs. -/
def classifyFrame (frame : AVFrame) : LoadResult :=
  match frame.format with
  | PixFmt.GRAY8 | PixFmt.Y400A | PixFmt.RGB24
  | PixFmt.MONOBLACK | PixFmt.MONOWHITE =>
      ⟨Except.ok (av_frame_clone frame), true, true, true⟩
  | PixFmt.PAL8 =>
      ⟨Except.ok (expandPalette frame), true, true, true⟩
  | _ => ⟨Except.error LoadError.unsupportedPixelFormat, false, false, false⟩

/-- Shallow embedding of `loadImage` (src/file.c lines 29-118).  Each
`if` mirrors one fatal check in source order; a failed check calls
`errOutput`, which terminates the process before any release.  After a
successful decode call, the frame holds the decoder's output when
`got_frame` was set and is otherwise still the fresh frame from
`av_frame_alloc` — the code never consults `got_frame`. -/
def loadImage (env : LoadEnv) : LoadResult :=
  if env.ctxAllocOk = false then
    ⟨Except.error LoadError.cannotAllocContext, false, false, false⟩
  else if env.openInputRet < 0 then
    ⟨Except.error LoadError.unableToOpenInput, false, false, false⟩
  else if env.nbStreams < 1 then
    ⟨Except.error LoadError.missingStreams, false, false, false⟩
  else if env.stream0IsVideo = false then
    ⟨Except.error LoadError.wrongStream, false, false, false⟩
  else if env.copyContextRet < 0 then
    ⟨Except.error LoadError.cannotSetContext, false, false, false⟩
  else if env.decoderFound = false then
    ⟨Except.error LoadError.unsupportedFormat, false, false, false⟩
  else if env.codecOpenRet < 0 then
    ⟨Except.error LoadError.unableToOpenCodec, false, false, false⟩
  else if env.readFrameRet < 0 then
    ⟨Except.error LoadError.unableToReadFrame, false, false, false⟩
  else if env.pktStreamIndex ≠ 0 then
    ⟨Except.error LoadError.invalidStream, false, false, false⟩
  else if env.decodeRet < 0 then
    ⟨Except.error LoadError.decodeFailed, false, false, false⟩
  else
    classifyFrame (if env.gotFrame then env.decodedFrame else av_frame_alloc)

/-- A `LoadEnv` in which every check before the format switch passes:
the run reaches the classification of the decoded frame. -/
def reachesClassify (env : LoadEnv) : Prop :=
  env.ctxAllocOk = true ∧ 0 ≤ env.openInputRet ∧ 1 ≤ env.nbStreams ∧
  env.stream0IsVideo = true ∧ 0 ≤ env.copyContextRet ∧
  env.decoderFound = true ∧ 0 ≤ env.codecOpenRet ∧
  0 ≤ env.readFrameRet ∧ env.pktStreamIndex = 0 ∧ 0 ≤ env.decodeRet

instance (env : LoadEnv) : Decidable (reachesClassify env) := by
  unfold reachesClassify; infer_instance

/-- The distinct fatal diagnostics `saveImage` can print through
`errOutput`, one per call site in src/file.c lines 139-219. -/
inductive SaveError where
  | couldNotFindOutputFormat
  | unableToAllocOutputContext
  | outputCodecNotFound
  | couldNotAllocStream
  | unableToOpenCodec
  | couldNotOpenFile
  | errorWritingHeader
  | unableToWriteFile
  deriving DecidableEq, Repr

/-- The `switch (outputPixFmt)` of `saveImage` (src/file.c lines
153-167), returning the (possibly reassigned) `outputPixFmt` together
with `output_codec`.  The switch has no `default` case, so for any other
format `outputPixFmt` is left unchanged and `output_codec` keeps its
initial value `-1` (`CodecId.NONE`). -/
def mapOutputFormat : PixFmt → PixFmt × CodecId
  | PixFmt.RGB24 => (PixFmt.RGB24, CodecId.PPM)
  | PixFmt.Y400A => (PixFmt.GRAY8, CodecId.PGM)
  | PixFmt.GRAY8 => (PixFmt.GRAY8, CodecId.PGM)
  | PixFmt.MONOBLACK => (PixFmt.MONOWHITE, CodecId.PBM)
  | PixFmt.MONOWHITE => (PixFmt.MONOWHITE, CodecId.PBM)
  | f => (f, CodecId.NONE)

/-- Modelled from the spec: `copyImageArea(0, 0, w, h, source, 0, 0,
target)` (tools.c, not under src/) copies/converts the full pixel area
from `source` into the separately allocated `target`, producing a new
buffer rather than mutating the source; the per-pixel value conversion
(alpha drop, bit-depth reduction) is internal to it and not observed by
any claim, so pixel values are carried over unchanged here. -/
def copyImageArea (w h : Nat) (source target : AVFrame) : AVFrame :=
  { target with
    pix := fun x y => if x < w ∧ y < h then source.pix x y else target.pix x y }

/-- Outcomes of the external libav calls made by one run of `saveImage`:
whether `av_guess_format` found the "image2" muxer, whether the
allocations succeeded, which of the raster encoders this build of the
library provides, and the return codes of the fallible calls. -/
structure SaveEnv where
  fmtFound : Bool
  outCtxAllocOk : Bool
  encoderFound : CodecId → Bool
  streamAllocOk : Bool
  codecOpenRet : Int
  avioOpenRet : Int
  writeHeaderRet : Int
  encodeRet : Int

/-- Model of `avcodec_find_encoder(output_codec)`: the library never has
an encoder for the invalid id `-1` (`CodecId.NONE`); for the real raster
codec ids the build of the library decides. -/
def avcodec_find_encoder (env : SaveEnv) : CodecId → Bool
  | CodecId.NONE => false
  | c => env.encoderFound c

/-- What a successful run of `saveImage` did: the file written, the
codec selected, the normalized pixel format, the frame handed to the
encoder, and whether that frame was a converted copy (`output != input`)
materialized at src/file.c lines 169-172. -/
structure SaveOut where
  filename : String
  codec : CodecId
  normalized : PixFmt
  encoded : AVFrame
  converted : Bool

/-- Result of one run of `saveImage`: the outcome or the fatal
diagnostic, plus which frames were freed before the run ended.  The only
`av_frame_free` in the function is the one at src/file.c lines 231-232,
guarded by `output != input`, so the caller's input frame is never the
target of a free. -/
structure SaveResult where
  result : Except SaveError SaveOut
  inputFreed : Bool
  convertedFreed : Bool

/-- The conversion step of `saveImage` (src/file.c lines 169-172): when
the input's format differs from the (normalized) `outputPixFmt`, a new
buffer of the input's geometry is allocated in the target format and the
full pixel area is copied into it; `output` then points at that copy.
Returns the `output` frame together with the fact `output != input`. -/
def convertedPair (input : AVFrame) (target : PixFmt) : AVFrame × Bool :=
  if input.format = target then (input, false)
  else
    (copyImageArea input.width input.height input
      (initImage input.width input.height target), true)

/-- The part of `saveImage` after the format switch (src/file.c lines
169-232), taking the switch's output: the normalized `outputPixFmt`
paired with `output_codec`.  The conversion of lines 169-172 is pure, so
its `convertedPair` value is referred to where its results are used
(`output` is encoded, and the guard `output != input` decides the free
at lines 231-232); fatal paths call `errOutput`, which terminates the
process before any free. -/
def saveImageBody (env : SaveEnv) (filename : String) (input : AVFrame)
    (mapped : PixFmt × CodecId) : SaveResult :=
  if avcodec_find_encoder env mapped.2 = false then
    ⟨Except.error SaveError.outputCodecNotFound, false, false⟩
  else if env.streamAllocOk = false then
    ⟨Except.error SaveError.couldNotAllocStream, false, false⟩
  else if env.codecOpenRet < 0 then
    ⟨Except.error SaveError.unableToOpenCodec, false, false⟩
  else if env.avioOpenRet < 0 then
    ⟨Except.error SaveError.couldNotOpenFile, false, false⟩
  else if env.writeHeaderRet < 0 then
    ⟨Except.error SaveError.errorWritingHeader, false, false⟩
  else if env.encodeRet < 0 then
    ⟨Except.error SaveError.unableToWriteFile, false, false⟩
  else
    ⟨Except.ok
      { filename := filename, codec := mapped.2, normalized := mapped.1,
        encoded := (convertedPair input mapped.1).1,
        converted := (convertedPair input mapped.1).2 },
      false, (convertedPair input mapped.1).2⟩

/-- Shallow embedding of `saveImage` (src/file.c lines 128-233).  The
conversion test at line 169 compares the input's format with
`outputPixFmt` *after* the switch has normalized it; when they differ a
converted copy is materialized via `initImage` + `copyImageArea` and
that copy (never the input) is freed on the success path at lines
231-232. -/
def saveImage (env : SaveEnv) (filename : String) (input : AVFrame)
    (outputPixFmt : PixFmt) : SaveResult :=
  if env.fmtFound = false then
    ⟨Except.error SaveError.couldNotFindOutputFormat, false, false⟩
  else if env.outCtxAllocOk = false then
    ⟨Except.error SaveError.unableToAllocOutputContext, false, false⟩
  else
    saveImageBody env filename input (mapOutputFormat outputPixFmt)

/-- Modelled from the spec: the ordered process-wide verbosity levels of
unpaper.h (not under src/) — at minimum normal, "more", "debug-save",
in that order.  Only the ordering matters to src/file.c. -/
def VERBOSE_MORE : Nat := 2

/-- Modelled from the spec: the "full debug" threshold at or above which
the Debug Sink writes its snapshot (unpaper.h, not under src/). -/
def VERBOSE_DEBUG_SAVE : Nat := 4

/-- Modelled from the spec: a caller-supplied filename template
containing one integer placeholder (the `sprintf(debugFilename,
filenameTemplate, index)` call uses libc formatting, outside src/): the
text before the placeholder and the text after it. -/
structure DebugTemplate where
  before : String
  after : String

/-- Modelled from the spec: substituting the integer index into the
template's placeholder. -/
def formatTemplate (t : DebugTemplate) (index : Nat) : String :=
  t.before ++ toString index ++ t.after

/-- Shallow embedding of `saveDebug` (src/file.c lines 238-244): a no-op
returning nothing when the verbosity is below `VERBOSE_DEBUG_SAVE`;
otherwise one call to `saveImage` on the formatted filename with the
image's own current pixel format as the desired format. -/
def saveDebug (verbose : Nat) (env : SaveEnv) (t : DebugTemplate)
    (index : Nat) (image : AVFrame) : Option (String × SaveResult) :=
  if VERBOSE_DEBUG_SAVE ≤ verbose then
    some (formatTemplate t index,
      saveImage env (formatTemplate t index) image image.format)
  else
    none

/-! ## Concrete fixtures

Small concrete frames and environments used to evaluate the embedded
functions on explicit inputs. -/

/-- A 2×2 palette-indexed frame whose index plane uses both index 0 and
index 255, with a palette that distinguishes them. -/
def palFrame : AVFrame :=
  { width := 2, height := 2, format := PixFmt.PAL8, linesize0 := 2,
    data0 := fun i => List.getD [0, 255, 255, 0] i 0,
    data1pal := fun i =>
      if (i : Nat) = 0 then 4279312947 else if (i : Nat) = 255 then 4282664902 else 7,
    pix := fun _ _ => 0 }

/-- A 2×2 8-bit grayscale frame. -/
def grayFrame : AVFrame :=
  { width := 2, height := 2, format := PixFmt.GRAY8, linesize0 := 2,
    data0 := fun i => List.getD [10, 20, 30, 40] i 0,
    data1pal := fun _ => 0, pix := fun _ _ => 0 }

/-- A 2×2 bi-level frame with the "white" polarity. -/
def monoFrame : AVFrame :=
  { width := 2, height := 2, format := PixFmt.MONOWHITE, linesize0 := 1,
    data0 := fun i => List.getD [128, 64] i 0,
    data1pal := fun _ => 0, pix := fun _ _ => 0 }

/-- A 2×2 frame in an unsupported pixel format (libav code 99). -/
def otherFrame : AVFrame :=
  { width := 2, height := 2, format := PixFmt.other 99, linesize0 := 2,
    data0 := fun _ => 0, data1pal := fun _ => 0, pix := fun _ _ => 0 }

/-- A load environment in which every libav call succeeds and the
decoder produces the given frame. -/
def goodLoadEnv (f : AVFrame) : LoadEnv :=
  { ctxAllocOk := true, openInputRet := 0, nbStreams := 1,
    stream0IsVideo := true, copyContextRet := 0, decoderFound := true,
    codecOpenRet := 0, readFrameRet := 0, pktStreamIndex := 0,
    decodeRet := 0, gotFrame := true, decodedFrame := f }

/-- A load environment in which the container opens successfully but
probing finds no stream: `loadImage` dies at src/file.c line 53 with the
already-opened format context never closed. -/
def noStreamsEnv : LoadEnv :=
  { goodLoadEnv palFrame with nbStreams := 0 }

/-- A load environment in which `avcodec_decode_video2` returns success
(`ret = 0`) but sets `got_frame = 0`: no raw frame was produced, and the
frame variable still holds the fresh `av_frame_alloc` value. -/
def noFrameEnv : LoadEnv :=
  { goodLoadEnv palFrame with gotFrame := false }

/-- A save environment in which every libav call succeeds and the build
provides all three raster encoders. -/
def goodSaveEnv : SaveEnv :=
  { fmtFound := true, outCtxAllocOk := true, encoderFound := fun _ => true,
    streamAllocOk := true, codecOpenRet := 0, avioOpenRet := 0,
    writeHeaderRet := 0, encodeRet := 0 }

/-- A concrete debug filename template. -/
def tmpl : DebugTemplate := { before := "stage", after := ".ppm" }

/-- The outcome of saving `grayFrame` with desired format `Y400A`: the
normalized format is `GRAY8`, which `grayFrame` already has, so the
input is encoded directly with no converted copy. -/
def grayY400AOut : SaveOut :=
  { filename := "gray.pgm", codec := CodecId.PGM, normalized := PixFmt.GRAY8,
    encoded := grayFrame, converted := false }

/-- The outcome of saving `grayFrame` with desired format `RGB24`: the
formats differ, so a converted copy is materialized and encoded. -/
def convOut : SaveOut :=
  { filename := "conv.ppm", codec := CodecId.PPM, normalized := PixFmt.RGB24,
    encoded := (convertedPair grayFrame PixFmt.RGB24).1, converted := true }

/-! ## Structural lemmas about the palette-expansion loops -/

theorem setPixel_width (c x y : Nat) (img : AVFrame) :
    (setPixel c x y img).width = img.width := rfl

theorem setPixel_height (c x y : Nat) (img : AVFrame) :
    (setPixel c x y img).height = img.height := rfl

theorem setPixel_format (c x y : Nat) (img : AVFrame) :
    (setPixel c x y img).format = img.format := rfl

theorem setPixel_pix (c x y : Nat) (img : AVFrame) (a b : Nat) :
    (setPixel c x y img).pix a b = if a = x ∧ b = y then c else img.pix a b := rfl

theorem fillRow_width (f : AVFrame) (y : Nat) :
    ∀ (n : Nat) (img : AVFrame), (fillRow f y n img).width = img.width := by
  intro n
  induction n with
  | zero => intro img; rfl
  | succ n ih => intro img; simp [fillRow, setPixel_width, ih]

theorem fillRow_height (f : AVFrame) (y : Nat) :
    ∀ (n : Nat) (img : AVFrame), (fillRow f y n img).height = img.height := by
  intro n
  induction n with
  | zero => intro img; rfl
  | succ n ih => intro img; simp [fillRow, setPixel_height, ih]

theorem fillRow_format (f : AVFrame) (y : Nat) :
    ∀ (n : Nat) (img : AVFrame), (fillRow f y n img).format = img.format := by
  intro n
  induction n with
  | zero => intro img; rfl
  | succ n ih => intro img; simp [fillRow, setPixel_format, ih]

theorem fillRow_pix (f : AVFrame) (y : Nat) :
    ∀ (n : Nat) (img : AVFrame) (a b : Nat),
      (fillRow f y n img).pix a b =
        if a < n ∧ b = y then (f.data1pal (readByte f (f.linesize0 * y + a)) : Nat)
        else img.pix a b := by
  intro n
  induction n with
  | zero =>
      intro img a b
      simp [fillRow]
  | succ n ih =>
      intro img a b
      simp only [fillRow, setPixel_pix, ih]
      by_cases hab : a = n ∧ b = y
      · obtain ⟨ha, hb⟩ := hab
        subst ha; subst hb
        simp
      · rw [if_neg hab]
        by_cases h2 : a < n ∧ b = y
        · rw [if_pos h2, if_pos ⟨Nat.lt_succ_of_lt h2.1, h2.2⟩]
        · rw [if_neg h2, if_neg]
          intro h3
          rcases Nat.lt_succ_iff_lt_or_eq.mp h3.1 with h4 | h4
          · exact h2 ⟨h4, h3.2⟩
          · exact hab ⟨h4, h3.2⟩

theorem fillRows_width (f : AVFrame) :
    ∀ (n : Nat) (img : AVFrame), (fillRows f n img).width = img.width := by
  intro n
  induction n with
  | zero => intro img; rfl
  | succ n ih => intro img; simp [fillRows, fillRow_width, ih]

theorem fillRows_height (f : AVFrame) :
    ∀ (n : Nat) (img : AVFrame), (fillRows f n img).height = img.height := by
  intro n
  induction n with
  | zero => intro img; rfl
  | succ n ih => intro img; simp [fillRows, fillRow_height, ih]

theorem fillRows_format (f : AVFrame) :
    ∀ (n : Nat) (img : AVFrame), (fillRows f n img).format = img.format := by
  intro n
  induction n with
  | zero => intro img; rfl
  | succ n ih => intro img; simp [fillRows, fillRow_format, ih]

theorem fillRows_pix (f : AVFrame) :
    ∀ (n : Nat) (img : AVFrame) (a b : Nat),
      (fillRows f n img).pix a b =
        if a < f.width ∧ b < n then (f.data1pal (readByte f (f.linesize0 * b + a)) : Nat)
        else img.pix a b := by
  intro n
  induction n with
  | zero =>
      intro img a b
      simp [fillRows]
  | succ n ih =>
      intro img a b
      simp only [fillRows, fillRow_pix, ih]
      by_cases hb : b = n
      · subst hb
        by_cases ha : a < f.width
        · simp [ha]
        · simp [ha]
      · by_cases h2 : a < f.width ∧ b < n
        · rw [if_neg (fun h => hb h.2), if_pos h2,
            if_pos ⟨h2.1, Nat.lt_succ_of_lt h2.2⟩]
        · rw [if_neg (fun h => hb h.2), if_neg h2, if_neg]
          intro h3
          rcases Nat.lt_succ_iff_lt_or_eq.mp h3.2 with h4 | h4
          · exact h2 ⟨h3.1, h4⟩
          · exact hb h4

theorem expandPalette_format (f : AVFrame) :
    (expandPalette f).format = PixFmt.RGB24 := by
  simp [expandPalette, fillRows_format, initImage]

theorem expandPalette_width (f : AVFrame) :
    (expandPalette f).width = f.width := by
  simp [expandPalette, fillRows_width, initImage]

theorem expandPalette_height (f : AVFrame) :
    (expandPalette f).height = f.height := by
  simp [expandPalette, fillRows_height, initImage]

theorem expandPalette_pix (f : AVFrame) (a b : Nat)
    (ha : a < f.width) (hb : b < f.height) :
    (expandPalette f).pix a b =
      (f.data1pal (readByte f (f.linesize0 * b + a)) : Nat) := by
  simp [expandPalette, fillRows_pix, ha, hb]

/-! ## Structural lemmas about `loadImage` -/

theorem loadImage_reaches (env : LoadEnv) (h : reachesClassify env) :
    loadImage env =
      classifyFrame (if env.gotFrame then env.decodedFrame else av_frame_alloc) := by
  obtain ⟨h1, h2, h3, h4, h5, h6, h7, h8, h9, h10⟩ := h
  unfold loadImage
  rw [if_neg (by simp [h1]), if_neg (by omega), if_neg (by omega),
    if_neg (by simp [h4]), if_neg (by omega), if_neg (by simp [h6]),
    if_neg (by omega), if_neg (by omega), if_neg (by simp [h9]),
    if_neg (by omega)]

theorem classifyFrame_ok (frame img : AVFrame)
    (h : (classifyFrame frame).result = Except.ok img) :
    img.format ≠ PixFmt.PAL8 ∧
      (img.format = PixFmt.GRAY8 ∨ img.format = PixFmt.Y400A ∨
       img.format = PixFmt.RGB24 ∨ img.format = PixFmt.MONOBLACK ∨
       img.format = PixFmt.MONOWHITE) := by
  cases hf : frame.format <;>
    simp [classifyFrame, hf, av_frame_clone] at h <;>
    subst h <;>
    simp [hf, expandPalette_format]

/-- Every run of `loadImage` either reaches the format switch, or dies
at one of the ten fatal checks before it with nothing released. -/
theorem loadImage_cases (env : LoadEnv) :
    loadImage env =
      classifyFrame (if env.gotFrame then env.decodedFrame else av_frame_alloc) ∨
    ∃ e, loadImage env = ⟨Except.error e, false, false, false⟩ := by
  by_cases h1 : env.ctxAllocOk = false
  · exact Or.inr ⟨_, by unfold loadImage; rw [if_pos h1]⟩
  by_cases h2 : env.openInputRet < 0
  · exact Or.inr ⟨_, by unfold loadImage; rw [if_neg h1, if_pos h2]⟩
  by_cases h3 : env.nbStreams < 1
  · exact Or.inr ⟨_, by unfold loadImage; rw [if_neg h1, if_neg h2, if_pos h3]⟩
  by_cases h4 : env.stream0IsVideo = false
  · refine Or.inr ⟨LoadError.wrongStream, ?_⟩
    unfold loadImage
    rw [if_neg h1, if_neg h2, if_neg h3, if_pos h4]
  by_cases h5 : env.copyContextRet < 0
  · refine Or.inr ⟨LoadError.cannotSetContext, ?_⟩
    unfold loadImage
    rw [if_neg h1, if_neg h2, if_neg h3, if_neg h4, if_pos h5]
  by_cases h6 : env.decoderFound = false
  · refine Or.inr ⟨LoadError.unsupportedFormat, ?_⟩
    unfold loadImage
    rw [if_neg h1, if_neg h2, if_neg h3, if_neg h4, if_neg h5, if_pos h6]
  by_cases h7 : env.codecOpenRet < 0
  · refine Or.inr ⟨LoadError.unableToOpenCodec, ?_⟩
    unfold loadImage
    rw [if_neg h1, if_neg h2, if_neg h3, if_neg h4, if_neg h5, if_neg h6,
      if_pos h7]
  by_cases h8 : env.readFrameRet < 0
  · refine Or.inr ⟨LoadError.unableToReadFrame, ?_⟩
    unfold loadImage
    rw [if_neg h1, if_neg h2, if_neg h3, if_neg h4, if_neg h5, if_neg h6,
      if_neg h7, if_pos h8]
  by_cases h9 : env.pktStreamIndex ≠ 0
  · refine Or.inr ⟨LoadError.invalidStream, ?_⟩
    unfold loadImage
    rw [if_neg h1, if_neg h2, if_neg h3, if_neg h4, if_neg h5, if_neg h6,
      if_neg h7, if_neg h8, if_pos h9]
  by_cases h10 : env.decodeRet < 0
  · refine Or.inr ⟨LoadError.decodeFailed, ?_⟩
    unfold loadImage
    rw [if_neg h1, if_neg h2, if_neg h3, if_neg h4, if_neg h5, if_neg h6,
      if_neg h7, if_neg h8, if_neg h9, if_pos h10]
  refine Or.inl ?_
  unfold loadImage
  rw [if_neg h1, if_neg h2, if_neg h3, if_neg h4, if_neg h5, if_neg h6,
    if_neg h7, if_neg h8, if_neg h9, if_neg h10]

/-- A frame whose format survives the switch is released in full: the
non-fatal branches of `classifyFrame` fall through to the releases at
src/file.c lines 115-117. -/
theorem classifyFrame_release (frame img : AVFrame)
    (h : (classifyFrame frame).result = Except.ok img) :
    (classifyFrame frame).closedCodec = true ∧
    (classifyFrame frame).freedAvctx = true ∧
    (classifyFrame frame).closedInput = true := by
  cases hf : frame.format <;> simp [classifyFrame, hf] at h ⊢

/-- A frame format outside the six handled cases takes the `default`
branch of the switch: fatal, nothing released. -/
theorem classifyFrame_default (frame : AVFrame)
    (h : frame.format ∉ [PixFmt.GRAY8, PixFmt.Y400A, PixFmt.RGB24,
      PixFmt.MONOBLACK, PixFmt.MONOWHITE, PixFmt.PAL8]) :
    classifyFrame frame =
      ⟨Except.error LoadError.unsupportedPixelFormat, false, false, false⟩ := by
  cases hf : frame.format <;> simp [hf] at h <;> simp [classifyFrame, hf]

/-! ## Structural lemmas about `saveImage` -/

/-- What the post-switch part of `saveImage` guarantees for any switch
output: the caller's input frame is never the target of a free, and a
successful run records exactly the given codec and normalized format,
encodes the `output` frame of the conversion step, and freed it exactly
when it was a converted copy. -/
theorem saveImageBody_spec (env : SaveEnv) (fname : String) (input : AVFrame)
    (mapped : PixFmt × CodecId) :
    (saveImageBody env fname input mapped).inputFreed = false ∧
    ∀ out, (saveImageBody env fname input mapped).result = Except.ok out →
      out.filename = fname ∧ out.codec = mapped.2 ∧
      out.normalized = mapped.1 ∧
      out.encoded = (convertedPair input mapped.1).1 ∧
      out.converted = (convertedPair input mapped.1).2 ∧
      (saveImageBody env fname input mapped).convertedFreed = out.converted := by
  unfold saveImageBody
  split
  · exact ⟨rfl, fun out h => Except.noConfusion h⟩
  split
  · exact ⟨rfl, fun out h => Except.noConfusion h⟩
  split
  · exact ⟨rfl, fun out h => Except.noConfusion h⟩
  split
  · exact ⟨rfl, fun out h => Except.noConfusion h⟩
  split
  · exact ⟨rfl, fun out h => Except.noConfusion h⟩
  split
  · exact ⟨rfl, fun out h => Except.noConfusion h⟩
  refine ⟨rfl, fun out h => ?_⟩
  injection h with h
  subst h
  exact ⟨rfl, rfl, rfl, rfl, rfl, rfl⟩

/-- `saveImage_spec`: the guarantees of `saveImageBody_spec`, lifted to
`saveImage` with the switch output `mapOutputFormat f`. -/
theorem saveImage_spec (env : SaveEnv) (fname : String) (input : AVFrame)
    (f : PixFmt) :
    (saveImage env fname input f).inputFreed = false ∧
    ∀ out, (saveImage env fname input f).result = Except.ok out →
      out.filename = fname ∧ out.codec = (mapOutputFormat f).2 ∧
      out.normalized = (mapOutputFormat f).1 ∧
      out.encoded = (convertedPair input (mapOutputFormat f).1).1 ∧
      out.converted = (convertedPair input (mapOutputFormat f).1).2 ∧
      (saveImage env fname input f).convertedFreed = out.converted := by
  unfold saveImage
  split
  · exact ⟨rfl, fun out h => Except.noConfusion h⟩
  split
  · exact ⟨rfl, fun out h => Except.noConfusion h⟩
  exact saveImageBody_spec env fname input (mapOutputFormat f)

/-- When the desired format is outside the switch's five cases,
`output_codec` keeps its initial invalid value `-1` and the format is
not reassigned. -/
theorem mapOutputFormat_outside (f : PixFmt)
    (h : f ∉ [PixFmt.RGB24, PixFmt.GRAY8, PixFmt.Y400A,
      PixFmt.MONOBLACK, PixFmt.MONOWHITE]) :
    mapOutputFormat f = (f, CodecId.NONE) := by
  cases f <;> simp at h <;> rfl

/-- With the muxer found and the context allocated, an invalid codec id
makes `avcodec_find_encoder` fail and `saveImage` die with "output codec
not found". -/
theorem saveImage_noCodec (env : SaveEnv) (fname : String) (input : AVFrame)
    (f : PixFmt) (h1 : env.fmtFound = true) (h2 : env.outCtxAllocOk = true)
    (h3 : (mapOutputFormat f).2 = CodecId.NONE) :
    (saveImage env fname input f).result =
      Except.error SaveError.outputCodecNotFound := by
  unfold saveImage
  rw [if_neg (by simp [h1]), if_neg (by simp [h2])]
  unfold saveImageBody
  rw [if_pos (by rw [h3]; rfl)]

/-- The conversion step leaves the input untouched when no conversion is
needed, and otherwise produces a fresh buffer in the target format. -/
theorem convertedPair_cases (input : AVFrame) (target : PixFmt) :
    ((convertedPair input target).2 = false →
      (convertedPair input target).1 = input) ∧
    ((convertedPair input target).2 = true →
      (convertedPair input target).1.format = target) ∧
    (input.format = target → convertedPair input target = (input, false)) := by
  unfold convertedPair
  split
  · exact ⟨fun _ => rfl, fun h => Bool.noConfusion h, fun _ => rfl⟩
  · next hne =>
      exact ⟨fun h => Bool.noConfusion h, fun _ => rfl, fun h => absurd h hne⟩

/-! ## Claim theorems -/

/-- C1: for a palette-indexed (PAL8) decoded source of width `w`, height
`h` and palette table `P`, `loadImage` returns an `RGB24` image of the
same geometry in which every pixel `(x, y)` with `x < w`, `y < h` equals
`P[i]`, where `i` is the one-byte index stored at
`data[0][linesize[0]*y + x]`; the output buffer is fully materialized
(every in-range pixel is determined by the remap) in the value returned
before the frame is released. -/
theorem c1_palette_expansion (env : LoadEnv)
    (henv : reachesClassify env) (hgot : env.gotFrame = true)
    (hfmt : env.decodedFrame.format = PixFmt.PAL8) :
    (loadImage env).result = Except.ok (expandPalette env.decodedFrame) ∧
    (expandPalette env.decodedFrame).format = PixFmt.RGB24 ∧
    (expandPalette env.decodedFrame).width = env.decodedFrame.width ∧
    (expandPalette env.decodedFrame).height = env.decodedFrame.height ∧
    ∀ x, x < env.decodedFrame.width → ∀ y, y < env.decodedFrame.height →
      (expandPalette env.decodedFrame).pix x y =
        (env.decodedFrame.data1pal
          (readByte env.decodedFrame (env.decodedFrame.linesize0 * y + x)) : Nat) := by
  refine ⟨?_, expandPalette_format _, expandPalette_width _,
    expandPalette_height _, ?_⟩
  · rw [loadImage_reaches env henv]
    have hif : (if env.gotFrame = true then env.decodedFrame else av_frame_alloc)
        = env.decodedFrame := by simp [hgot]
    rw [hif]
    simp [classifyFrame, hfmt]
  · intro x hx y hy
    exact expandPalette_pix env.decodedFrame x y hx hy

/-- C1 witness: the theorem applied to a concrete 2×2 PAL8 source whose
index plane uses index 0 and index 255. -/
theorem c1_palette_expansion_witness :
    (loadImage (goodLoadEnv palFrame)).result =
      Except.ok (expandPalette palFrame) ∧
    (expandPalette palFrame).format = PixFmt.RGB24 ∧
    (expandPalette palFrame).pix 0 0 =
      (palFrame.data1pal (readByte palFrame (palFrame.linesize0 * 0 + 0)) : Nat) ∧
    (expandPalette palFrame).pix 1 0 =
      (palFrame.data1pal (readByte palFrame (palFrame.linesize0 * 0 + 1)) : Nat) ∧
    (expandPalette palFrame).pix 0 0 = 4279312947 ∧
    (expandPalette palFrame).pix 1 0 = 4282664902 := by
  have h := c1_palette_expansion (goodLoadEnv palFrame) (by decide) rfl rfl
  exact ⟨h.1, h.2.1, h.2.2.2.2 0 (by decide) 0 (by decide),
    h.2.2.2.2 1 (by decide) 0 (by decide), by decide, by decide⟩

/-- C2: `saveImage` maps the desired format by the fixed three-row
table — `RGB24` to the PPM codec with format `RGB24`, `Gray8`/`GrayAlpha8`
to the PGM codec with normalized format `Gray8`, `MonoBlack`/`MonoWhite`
to the PBM codec with normalized format `MonoWhite` — and every run whose
desired format is outside the table fails fatally with "output codec not
found" (the switch has no default, so `output_codec` stays `-1` and the
encoder lookup fails) rather than silently defaulting to some codec. -/
theorem c2_format_mapping (env : SaveEnv) (fname : String) (input : AVFrame)
    (f : PixFmt) (h1 : env.fmtFound = true) (h2 : env.outCtxAllocOk = true) :
    mapOutputFormat PixFmt.RGB24 = (PixFmt.RGB24, CodecId.PPM) ∧
    mapOutputFormat PixFmt.GRAY8 = (PixFmt.GRAY8, CodecId.PGM) ∧
    mapOutputFormat PixFmt.Y400A = (PixFmt.GRAY8, CodecId.PGM) ∧
    mapOutputFormat PixFmt.MONOBLACK = (PixFmt.MONOWHITE, CodecId.PBM) ∧
    mapOutputFormat PixFmt.MONOWHITE = (PixFmt.MONOWHITE, CodecId.PBM) ∧
    (∀ out, (saveImage env fname input f).result = Except.ok out →
      out.codec = (mapOutputFormat f).2 ∧
      out.normalized = (mapOutputFormat f).1) ∧
    (f ∉ [PixFmt.RGB24, PixFmt.GRAY8, PixFmt.Y400A, PixFmt.MONOBLACK,
        PixFmt.MONOWHITE] →
      (saveImage env fname input f).result =
        Except.error SaveError.outputCodecNotFound) := by
  refine ⟨rfl, rfl, rfl, rfl, rfl, ?_, ?_⟩
  · intro out hout
    have h := (saveImage_spec env fname input f).2 out hout
    exact ⟨h.2.1, h.2.2.1⟩
  · intro hnot
    exact saveImage_noCodec env fname input f h1 h2
      (by rw [mapOutputFormat_outside f hnot])

/-- C2 witness: the theorem applied to a concrete environment with the
desired format `PAL8`, which lies outside the table. -/
theorem c2_format_mapping_witness :
    mapOutputFormat PixFmt.RGB24 = (PixFmt.RGB24, CodecId.PPM) ∧
    mapOutputFormat PixFmt.GRAY8 = (PixFmt.GRAY8, CodecId.PGM) ∧
    mapOutputFormat PixFmt.Y400A = (PixFmt.GRAY8, CodecId.PGM) ∧
    mapOutputFormat PixFmt.MONOBLACK = (PixFmt.MONOWHITE, CodecId.PBM) ∧
    mapOutputFormat PixFmt.MONOWHITE = (PixFmt.MONOWHITE, CodecId.PBM) ∧
    (saveImage goodSaveEnv "out.ppm" grayFrame PixFmt.PAL8).result =
      Except.error SaveError.outputCodecNotFound := by
  have h := c2_format_mapping goodSaveEnv "out.ppm" grayFrame PixFmt.PAL8 rfl rfl
  exact ⟨h.1, h.2.1, h.2.2.1, h.2.2.2.1, h.2.2.2.2.1,
    h.2.2.2.2.2.2 (by decide)⟩

/-- C3: a successfully loaded image never carries `Palette8`: its format
is one of `Gray8`, `GrayAlpha8`, `RGB24`, `MonoBlack`, `MonoWhite`
(palette input having been expanded to `RGB24`); a decoded frame whose
format is outside that set plus `Palette8` makes `loadImage` fail
fatally instead of returning an image. -/
theorem c3_no_palette_output (env : LoadEnv) :
    (∀ img, (loadImage env).result = Except.ok img →
      img.format ≠ PixFmt.PAL8 ∧
      (img.format = PixFmt.GRAY8 ∨ img.format = PixFmt.Y400A ∨
       img.format = PixFmt.RGB24 ∨ img.format = PixFmt.MONOBLACK ∨
       img.format = PixFmt.MONOWHITE)) ∧
    (reachesClassify env → env.gotFrame = true →
      env.decodedFrame.format ∉ [PixFmt.GRAY8, PixFmt.Y400A, PixFmt.RGB24,
        PixFmt.MONOBLACK, PixFmt.MONOWHITE, PixFmt.PAL8] →
      (loadImage env).result =
        Except.error LoadError.unsupportedPixelFormat) := by
  constructor
  · intro img h
    rcases loadImage_cases env with hc | ⟨e, hc⟩
    · rw [hc] at h
      exact classifyFrame_ok _ img h
    · rw [hc] at h
      exact Except.noConfusion h
  · intro hr hg hnot
    rw [loadImage_reaches env hr]
    have hif : (if env.gotFrame = true then env.decodedFrame else av_frame_alloc)
        = env.decodedFrame := by simp [hg]
    rw [hif, classifyFrame_default env.decodedFrame hnot]

/-- C3 witness: the theorem applied to a concrete unsupported-format
frame (fatal) and to a concrete grayscale frame (returned image's format
is in the allowed set). -/
theorem c3_no_palette_output_witness :
    (loadImage (goodLoadEnv otherFrame)).result =
      Except.error LoadError.unsupportedPixelFormat ∧
    (grayFrame.format ≠ PixFmt.PAL8 ∧
      (grayFrame.format = PixFmt.GRAY8 ∨ grayFrame.format = PixFmt.Y400A ∨
       grayFrame.format = PixFmt.RGB24 ∨ grayFrame.format = PixFmt.MONOBLACK ∨
       grayFrame.format = PixFmt.MONOWHITE)) := by
  refine ⟨(c3_no_palette_output (goodLoadEnv otherFrame)).2 (by decide) rfl
    (by decide), ?_⟩
  exact (c3_no_palette_output (goodLoadEnv grayFrame)).1 grayFrame rfl

/-- C4: for a decoded frame in a supported non-palette format (`Gray8`,
`GrayAlpha8`, `RGB24`, `MonoBlack`, `MonoWhite`), `loadImage` returns the
clone of that frame: an image whose width, height, pixel format,
stride and plane bytes are identical to the decoded frame's — a pure
clone with no conversion. -/
theorem c4_passthrough_clone (env : LoadEnv)
    (henv : reachesClassify env) (hgot : env.gotFrame = true)
    (hfmt : env.decodedFrame.format ∈ [PixFmt.GRAY8, PixFmt.Y400A,
      PixFmt.RGB24, PixFmt.MONOBLACK, PixFmt.MONOWHITE]) :
    (loadImage env).result = Except.ok (av_frame_clone env.decodedFrame) ∧
    (av_frame_clone env.decodedFrame).width = env.decodedFrame.width ∧
    (av_frame_clone env.decodedFrame).height = env.decodedFrame.height ∧
    (av_frame_clone env.decodedFrame).format = env.decodedFrame.format ∧
    (av_frame_clone env.decodedFrame).linesize0 = env.decodedFrame.linesize0 ∧
    (av_frame_clone env.decodedFrame).data0 = env.decodedFrame.data0 := by
  refine ⟨?_, rfl, rfl, rfl, rfl, rfl⟩
  rw [loadImage_reaches env henv]
  have hif : (if env.gotFrame = true then env.decodedFrame else av_frame_alloc)
      = env.decodedFrame := by simp [hgot]
  rw [hif]
  simp only [List.mem_cons, List.not_mem_nil, or_false] at hfmt
  rcases hfmt with h | h | h | h | h <;> simp [classifyFrame, h]

/-- C4 witness: the theorem applied to a concrete grayscale frame. -/
theorem c4_passthrough_clone_witness :
    (loadImage (goodLoadEnv grayFrame)).result =
      Except.ok (av_frame_clone grayFrame) ∧
    (av_frame_clone grayFrame).width = grayFrame.width ∧
    (av_frame_clone grayFrame).height = grayFrame.height ∧
    (av_frame_clone grayFrame).format = grayFrame.format ∧
    (av_frame_clone grayFrame).linesize0 = grayFrame.linesize0 ∧
    (av_frame_clone grayFrame).data0 = grayFrame.data0 :=
  c4_passthrough_clone (goodLoadEnv grayFrame) (by decide) rfl (by decide)

/-- C5: `saveImage` never frees the caller's input frame on any path;
on a successful run the converted copy — and only it — is freed exactly
when one was materialized, the encoded frame is the unchanged input
whenever no conversion happened, and a materialized copy is a new buffer
in the normalized target format. -/
theorem c5_input_preserved (env : SaveEnv) (fname : String) (input : AVFrame)
    (f : PixFmt) :
    (saveImage env fname input f).inputFreed = false ∧
    ∀ out, (saveImage env fname input f).result = Except.ok out →
      (saveImage env fname input f).convertedFreed = out.converted ∧
      (out.converted = false → out.encoded = input) ∧
      (out.converted = true → out.encoded.format = out.normalized) := by
  obtain ⟨hin, hok⟩ := saveImage_spec env fname input f
  refine ⟨hin, fun out h => ?_⟩
  obtain ⟨-, -, hnorm, henc, hconv, hfreed⟩ := hok out h
  refine ⟨hfreed, ?_, ?_⟩
  · intro hc
    rw [henc]
    exact (convertedPair_cases input (mapOutputFormat f).1).1
      (hconv.symm.trans hc)
  · intro hc
    rw [henc, hnorm]
    exact (convertedPair_cases input (mapOutputFormat f).1).2.1
      (hconv.symm.trans hc)

/-- C5 witness: the theorem applied to a concrete save that materializes
a converted copy (`Gray8` input saved as `RGB24`). -/
theorem c5_input_preserved_witness :
    (saveImage goodSaveEnv "conv.ppm" grayFrame PixFmt.RGB24).inputFreed
      = false ∧
    (saveImage goodSaveEnv "conv.ppm" grayFrame PixFmt.RGB24).convertedFreed
      = convOut.converted ∧
    (convOut.converted = false → convOut.encoded = grayFrame) ∧
    (convOut.converted = true → convOut.encoded.format = convOut.normalized) := by
  have h := c5_input_preserved goodSaveEnv "conv.ppm" grayFrame PixFmt.RGB24
  exact ⟨h.1, (h.2 convOut rfl).1, (h.2 convOut rfl).2.1, (h.2 convOut rfl).2.2⟩

/-- C6 counterexample: the claim "all codec and container resources are
released before the call returns or raises, on every failure path alike"
is false on the code: with the container opened successfully but no
stream found, `loadImage` dies via `errOutput` at src/file.c line 53 and
none of the releases at lines 115-117 has run. -/
theorem c6_release_counterexample :
    (loadImage noStreamsEnv).result = Except.error LoadError.missingStreams ∧
    (loadImage noStreamsEnv).closedCodec = false ∧
    (loadImage noStreamsEnv).freedAvctx = false ∧
    (loadImage noStreamsEnv).closedInput = false :=
  ⟨rfl, rfl, rfl, rfl⟩

/-- C6 (amended): on the success path all codec and container resources
are released before `loadImage` returns; on failure paths the fatal
reporter terminates the process without the releases having run. -/
theorem c6_success_path_release (env : LoadEnv) (img : AVFrame)
    (h : (loadImage env).result = Except.ok img) :
    (loadImage env).closedCodec = true ∧
    (loadImage env).freedAvctx = true ∧
    (loadImage env).closedInput = true := by
  rcases loadImage_cases env with hc | ⟨e, hc⟩
  · rw [hc] at h ⊢
    exact classifyFrame_release _ img h
  · rw [hc] at h
    exact Except.noConfusion h

/-- C6 witness: the amended theorem applied to a concrete successful
load of a bi-level frame. -/
theorem c6_success_path_release_witness :
    (loadImage (goodLoadEnv monoFrame)).closedCodec = true ∧
    (loadImage (goodLoadEnv monoFrame)).freedAvctx = true ∧
    (loadImage (goodLoadEnv monoFrame)).closedInput = true :=
  c6_success_path_release (goodLoadEnv monoFrame) (av_frame_clone monoFrame) rfl

/-- C7: with the process-wide verbosity below the debug-save threshold,
`saveDebug` writes nothing and is a no-op for any template, index and
image; at or above the threshold it performs exactly one save, of the
template with the integer index substituted, via the Encoder with the
image's own current pixel format as the desired format. -/
theorem c7_debug_sink_gating (verbose : Nat) (env : SaveEnv)
    (t : DebugTemplate) (index : Nat) (image : AVFrame) :
    (verbose < VERBOSE_DEBUG_SAVE → saveDebug verbose env t index image = none) ∧
    (VERBOSE_DEBUG_SAVE ≤ verbose →
      saveDebug verbose env t index image =
        some (formatTemplate t index,
          saveImage env (formatTemplate t index) image image.format)) := by
  constructor
  · intro h
    unfold saveDebug
    rw [if_neg (by omega)]
  · intro h
    unfold saveDebug
    rw [if_pos h]

/-- C7 witness: the theorem applied at verbosity 0 (below threshold) and
verbosity 4 (at threshold) on a concrete template, index and image. -/
theorem c7_debug_sink_gating_witness :
    saveDebug 0 goodSaveEnv tmpl 3 grayFrame = none ∧
    saveDebug 4 goodSaveEnv tmpl 3 grayFrame =
      some (formatTemplate tmpl 3,
        saveImage goodSaveEnv (formatTemplate tmpl 3) grayFrame
          grayFrame.format) :=
  ⟨(c7_debug_sink_gating 0 goodSaveEnv tmpl 3 grayFrame).1 (by decide),
   (c7_debug_sink_gating 4 goodSaveEnv tmpl 3 grayFrame).2 (by decide)⟩

/-- C8 (code bug in src/file.c line 83-96): when the decode call
succeeds at the library level (`ret = 0`) but produces no raw frame
(`got_frame = 0`), the claim — and the spec's error taxonomy — require a
fatal Read/Decode diagnostic, but the code never consults `got_frame`:
it proceeds to classify the still-unset format (`AV_PIX_FMT_NONE`) of
the fresh frame and dies with the Unsupported-format diagnostic
"unsupported pixel format" instead of a Read/Decode one. -/
theorem c8_decode_no_frame_classified :
    noFrameEnv.decodeRet = 0 ∧ noFrameEnv.gotFrame = false ∧
    (loadImage noFrameEnv).result =
      Except.error LoadError.unsupportedPixelFormat ∧
    (loadImage noFrameEnv).result ≠ Except.error LoadError.decodeFailed ∧
    (loadImage noFrameEnv).result ≠ Except.error LoadError.unableToReadFrame := by
  refine ⟨rfl, rfl, rfl, ?_, ?_⟩
  · intro h
    injection h with h2
    exact LoadError.noConfusion h2
  · intro h
    injection h with h2
    exact LoadError.noConfusion h2

/-- C9: during palette expansion every lookup into the 256-entry palette
table is in bounds — the index read for a pixel is the one-byte
(`uint8_t`) load `readByte`, whose value is the stored cell reduced mod
256 and hence below 256, whatever the image contents are. -/
theorem c9_palette_index_in_bounds (f : AVFrame) (y x : Nat) :
    ((readByte f (f.linesize0 * y + x)) : Fin 256).val < 256 ∧
    ((readByte f (f.linesize0 * y + x)) : Fin 256).val =
      f.data0 (f.linesize0 * y + x) % 256 :=
  ⟨(readByte f (f.linesize0 * y + x)).isLt, rfl⟩

/-- C10: the conversion-needed test of `saveImage` compares the input's
format against the normalized target, not against the caller's requested
format: whenever the input is already in the normalized format of the
requested family (e.g. `Gray8` saved with desired `GrayAlpha8`, or
`MonoWhite` saved with desired `MonoBlack`), no converted copy is
materialized and the input buffer itself is encoded. -/
theorem c10_conversion_uses_normalized (env : SaveEnv) (fname : String)
    (input : AVFrame) (f : PixFmt)
    (h : input.format = (mapOutputFormat f).1) :
    ∀ out, (saveImage env fname input f).result = Except.ok out →
      out.converted = false ∧ out.encoded = input ∧
      (saveImage env fname input f).convertedFreed = false := by
  intro out hout
  obtain ⟨-, -, -, henc, hconv, hfreed⟩ :=
    (saveImage_spec env fname input f).2 out hout
  have hcp := (convertedPair_cases input (mapOutputFormat f).1).2.2 h
  rw [hcp] at henc hconv
  exact ⟨hconv, henc, by rw [hfreed, hconv]⟩

/-- C10 witness: the theorem applied to a concrete `Gray8` image saved
with desired format `GrayAlpha8` (whose normalized format is `Gray8`):
the encoded frame is the input itself and nothing is freed. -/
theorem c10_conversion_uses_normalized_witness :
    (saveImage goodSaveEnv "gray.pgm" grayFrame PixFmt.Y400A).result =
      Except.ok grayY400AOut ∧
    grayY400AOut.converted = false ∧ grayY400AOut.encoded = grayFrame ∧
    (saveImage goodSaveEnv "gray.pgm" grayFrame PixFmt.Y400A).convertedFreed
      = false := by
  have h := c10_conversion_uses_normalized goodSaveEnv "gray.pgm" grayFrame
    PixFmt.Y400A rfl grayY400AOut rfl
  exact ⟨rfl, h.1, h.2.1, h.2.2⟩
